/-
Verification of the drone trajectory planning library (camera geometry,
grid plan generation, kinematics) against its specification.

The Python sources use floating point scalars; they are embedded here as
real numbers.  Fallible numeric operations (float division by zero raises
ZeroDivisionError, math.sqrt of a negative raises ValueError) are embedded
with `Except String`.
-/
import Mathlib

noncomputable section

/-- Pinhole camera intrinsics, from src/data_model.py (`Camera`). -/
structure Camera where
  fx : ℝ
  fy : ℝ
  cx : ℝ
  cy : ℝ
  sensor_size_x_mm : ℝ
  sensor_size_y_mm : ℝ
  image_size_x_px : ℝ
  image_size_y_px : ℝ

/-- Mission specification, from src/data_model.py (`DatasetSpec`). -/
structure DatasetSpec where
  overlap : ℝ
  sidelap : ℝ
  height : ℝ
  scan_dimension_x : ℝ
  scan_dimension_y : ℝ
  exposure_time_ms : ℝ
  gimbal_x_deg : ℝ := 0
  gimbal_y_deg : ℝ := 0

/-- Capture waypoint.  src/data_model.py declares only the six position and
surface-rectangle fields (`z` and `speed_m_per_sec` appear there commented
out), but both plan generators in src/plan_computation.py construct the
record with eight positional values and the spec's output contract reads
`z` and `speed_m_per_sec` from every waypoint, so the record is embedded
with the eight fields its construction and consumption require. -/
structure Waypoint where
  x : ℝ
  y : ℝ
  surface_coord_x1 : ℝ
  surface_coord_x2 : ℝ
  surface_coord_y1 : ℝ
  surface_coord_y2 : ℝ
  z : ℝ
  speed_m_per_sec : ℝ

/-- Spec §3 invariant on `Camera`: all fields strictly positive. -/
def Camera.Valid (c : Camera) : Prop :=
  0 < c.fx ∧ 0 < c.fy ∧ 0 < c.cx ∧ 0 < c.cy ∧
  0 < c.sensor_size_x_mm ∧ 0 < c.sensor_size_y_mm ∧
  0 < c.image_size_x_px ∧ 0 < c.image_size_y_px

/-- np.radians: degrees to radians. -/
def radians (deg : ℝ) : ℝ := deg * Real.pi / 180

/-- src/camera_utils.py `compute_focal_length_in_mm`: focal length in mm
per axis, `[fx * sensor_x/image_x, fy * sensor_y/image_y]`. -/
def compute_focal_length_in_mm (camera : Camera) : ℝ × ℝ :=
  (camera.fx * (camera.sensor_size_x_mm / camera.image_size_x_px),
   camera.fy * (camera.sensor_size_y_mm / camera.image_size_y_px))

/-- src/camera_utils.py `project_world_point_to_image`: pinhole projection
of a 3D point to pixel coordinates. -/
def project_world_point_to_image (camera : Camera) (point : ℝ × ℝ × ℝ) : ℝ × ℝ :=
  (camera.fx * point.1 / point.2.2 + camera.cx,
   camera.fy * point.2.1 / point.2.2 + camera.cy)

/-- src/camera_utils.py `compute_image_footprint_on_surface`:
ground footprint `[d * image_x/fx, d * image_y/fy]`. -/
def compute_image_footprint_on_surface (camera : Camera)
    (distance_from_surface : ℝ) : ℝ × ℝ :=
  (distance_from_surface * (camera.image_size_x_px / camera.fx),
   distance_from_surface * (camera.image_size_y_px / camera.fy))

/-- src/camera_utils.py `compute_image_footprint_on_surface_with_gimbal_angle`:
footprint from sensor geometry and gimbal tilt,
`d * (tan(tilt + fov/2) - tan(tilt - fov/2))` per axis. -/
def compute_image_footprint_on_surface_with_gimbal_angle (camera : Camera)
    (distance_from_surface gimbal_x_deg gimbal_y_deg : ℝ) : ℝ × ℝ :=
  let fx_mm := (compute_focal_length_in_mm camera).1
  let fy_mm := (compute_focal_length_in_mm camera).2
  let gimbal_x_rad := radians gimbal_x_deg
  let gimbal_y_rad := radians gimbal_y_deg
  let fov_x := 2 * Real.arctan ((camera.sensor_size_x_mm / 2) / fx_mm)
  let fov_y := 2 * Real.arctan ((camera.sensor_size_y_mm / 2) / fy_mm)
  (distance_from_surface *
     (Real.tan (gimbal_x_rad + fov_x / 2) - Real.tan (gimbal_x_rad - fov_x / 2)),
   distance_from_surface *
     (Real.tan (gimbal_y_rad + fov_y / 2) - Real.tan (gimbal_y_rad - fov_y / 2)))

/-- src/camera_utils.py `compute_ground_sampling_distance`:
`min(footprint_x/image_x, footprint_y/image_y)`. -/
def compute_ground_sampling_distance (camera : Camera)
    (distance_from_surface : ℝ) : ℝ :=
  let fp := compute_image_footprint_on_surface camera distance_from_surface
  min (fp.1 / camera.image_size_x_px) (fp.2 / camera.image_size_y_px)

/-- src/camera_utils.py `reproject_image_point_to_world`: inverse projection
at a known planar distance. -/
def reproject_image_point_to_world (camera : Camera) (pixel : ℝ × ℝ)
    (distance_from_surface : ℝ) : ℝ × ℝ × ℝ :=
  (((pixel.1 - camera.cx) / camera.fx) * distance_from_surface,
   ((pixel.2 - camera.cy) / camera.fy) * distance_from_surface,
   distance_from_surface)

/-- src/plan_computation.py `compute_distance_between_images`:
per-axis footprint scaled by `1 - overlap` / `1 - sidelap`. -/
def compute_distance_between_images (camera : Camera)
    (dataset_spec : DatasetSpec) : ℝ × ℝ :=
  let fp := compute_image_footprint_on_surface camera dataset_spec.height
  (fp.1 * (1 - dataset_spec.overlap), fp.2 * (1 - dataset_spec.sidelap))

/-- src/plan_computation.py `compute_distance_between_images_with_gimbal_angle`. -/
def compute_distance_between_images_with_gimbal_angle (camera : Camera)
    (dataset_spec : DatasetSpec) : ℝ × ℝ :=
  let fp := compute_image_footprint_on_surface_with_gimbal_angle camera
    dataset_spec.height dataset_spec.gimbal_x_deg dataset_spec.gimbal_y_deg
  (fp.1 * (1 - dataset_spec.overlap), fp.2 * (1 - dataset_spec.sidelap))

/-- src/plan_computation.py `compute_speed_during_photo_capture`:
`gsd * allowed_movement_px / (exposure_time_ms / 1000)`; the Python default
`allowed_movement_px = 1`, used by both plan generators, is passed
explicitly here. -/
def compute_speed_during_photo_capture (camera : Camera)
    (dataset_spec : DatasetSpec) (allowed_movement_px : ℝ) : ℝ :=
  compute_ground_sampling_distance camera dataset_spec.height *
    allowed_movement_px / (dataset_spec.exposure_time_ms / 1000)

/-- `num_of_images_x` of `generate_photo_plan_on_grid`:
`math.ceil(scan_dimension_x / distance_x)` (made a `ℕ` via `Int.toNat`,
matching Python `range` which is empty for a non-positive bound). -/
def number_of_images_x (camera : Camera) (dataset_spec : DatasetSpec) : ℕ :=
  ⌈dataset_spec.scan_dimension_x /
    (compute_distance_between_images camera dataset_spec).1⌉.toNat

/-- `num_of_images_y` of `generate_photo_plan_on_grid`. -/
def number_of_images_y (camera : Camera) (dataset_spec : DatasetSpec) : ℕ :=
  ⌈dataset_spec.scan_dimension_y /
    (compute_distance_between_images camera dataset_spec).2⌉.toNat

/-- `num_of_images_x` of `generate_photo_plan_on_grid_with_gimbal_angle`. -/
def number_of_images_x_with_gimbal (camera : Camera)
    (dataset_spec : DatasetSpec) : ℕ :=
  ⌈dataset_spec.scan_dimension_x /
    (compute_distance_between_images_with_gimbal_angle camera dataset_spec).1⌉.toNat

/-- `num_of_images_y` of `generate_photo_plan_on_grid_with_gimbal_angle`. -/
def number_of_images_y_with_gimbal (camera : Camera)
    (dataset_spec : DatasetSpec) : ℕ :=
  ⌈dataset_spec.scan_dimension_y /
    (compute_distance_between_images_with_gimbal_angle camera dataset_spec).2⌉.toNat

/-- The loop body of `generate_photo_plan_on_grid`: the waypoint of column
`nx` in row `ny` (serpentine column on odd rows, via integer arithmetic as
in Python), with the surface rectangle centered on the position. -/
def photo_plan_waypoint (camera : Camera) (dataset_spec : DatasetSpec)
    (num_x ny nx : ℕ) : Waypoint :=
  let distance := compute_distance_between_images camera dataset_spec
  let speed := compute_speed_during_photo_capture camera dataset_spec 1
  let fp := compute_image_footprint_on_surface camera dataset_spec.height
  let dx := fp.1 / 2
  let dy := fp.2 / 2
  let y : ℝ := (ny : ℝ) * distance.2
  let x : ℝ := if ny % 2 = 0 then (nx : ℝ) * distance.1
               else (((num_x : ℤ) - (nx : ℤ) - 1 : ℤ) : ℝ) * distance.1
  Waypoint.mk x y (x - dx) (x + dx) (y - dy) (y + dy)
    dataset_spec.height speed

/-- src/plan_computation.py `generate_photo_plan_on_grid`: serpentine grid of
waypoints; the nested for-loops with `append` are rendered as
`flatten` of a `map` over the row indices. -/
def generate_photo_plan_on_grid (camera : Camera)
    (dataset_spec : DatasetSpec) : List Waypoint :=
  let num_x := number_of_images_x camera dataset_spec
  let num_y := number_of_images_y camera dataset_spec
  ((List.range num_y).map (fun (ny : ℕ) =>
    (List.range num_x).map (photo_plan_waypoint camera dataset_spec num_x ny))).flatten

/-- The loop body of `generate_photo_plan_on_grid_with_gimbal_angle`: as
`photo_plan_waypoint` but with the asymmetric surface-rectangle offsets
derived from the gimbal tilt and the sensor field of view. -/
def photo_plan_waypoint_with_gimbal (camera : Camera)
    (dataset_spec : DatasetSpec) (num_x ny nx : ℕ) : Waypoint :=
  let distance := compute_distance_between_images_with_gimbal_angle camera dataset_spec
  let speed := compute_speed_during_photo_capture camera dataset_spec 1
  let fx_mm := (compute_focal_length_in_mm camera).1
  let fy_mm := (compute_focal_length_in_mm camera).2
  let gimbal_x_rad := radians dataset_spec.gimbal_x_deg
  let gimbal_y_rad := radians dataset_spec.gimbal_y_deg
  let fov_x := 2 * Real.arctan ((camera.sensor_size_x_mm / 2) / fx_mm)
  let fov_y := 2 * Real.arctan ((camera.sensor_size_y_mm / 2) / fy_mm)
  let dx1 := dataset_spec.height * Real.tan (gimbal_x_rad - fov_x / 2)
  let dx2 := dataset_spec.height * Real.tan (gimbal_x_rad + fov_x / 2)
  let dy1 := dataset_spec.height * Real.tan (gimbal_y_rad - fov_y / 2)
  let dy2 := dataset_spec.height * Real.tan (gimbal_y_rad + fov_y / 2)
  let y : ℝ := (ny : ℝ) * distance.2
  let x : ℝ := if ny % 2 = 0 then (nx : ℝ) * distance.1
               else (((num_x : ℤ) - (nx : ℤ) - 1 : ℤ) : ℝ) * distance.1
  Waypoint.mk x y (x + dx1) (x + dx2) (y + dy1) (y + dy2)
    dataset_spec.height speed

/-- src/plan_computation.py `generate_photo_plan_on_grid_with_gimbal_angle`:
serpentine grid with asymmetric surface-rectangle offsets from the tilt. -/
def generate_photo_plan_on_grid_with_gimbal_angle (camera : Camera)
    (dataset_spec : DatasetSpec) : List Waypoint :=
  let num_x := number_of_images_x_with_gimbal camera dataset_spec
  let num_y := number_of_images_y_with_gimbal camera dataset_spec
  ((List.range num_y).map (fun (ny : ℕ) =>
    (List.range num_x).map
      (photo_plan_waypoint_with_gimbal camera dataset_spec num_x ny))).flatten

/-- `acceleration_time` of `compute_travel_time_between_waypoints`:
`(max_speed - capture_speed) / max_accel`. -/
def acceleration_time (max_speed_m_per_sec max_acceleration_m_per_sec2
    capture_speed_m_per_sec : ℝ) : ℝ :=
  (max_speed_m_per_sec - capture_speed_m_per_sec) / max_acceleration_m_per_sec2

/-- `acceleration_distance` of `compute_travel_time_between_waypoints`:
`capture_speed * accel_time + max_accel * accel_time² / 2`. -/
def acceleration_distance (max_speed_m_per_sec max_acceleration_m_per_sec2
    capture_speed_m_per_sec : ℝ) : ℝ :=
  capture_speed_m_per_sec *
      acceleration_time max_speed_m_per_sec max_acceleration_m_per_sec2
        capture_speed_m_per_sec +
    max_acceleration_m_per_sec2 *
      (acceleration_time max_speed_m_per_sec max_acceleration_m_per_sec2
          capture_speed_m_per_sec) ^ 2 / 2

/-- The triangular branch of `compute_travel_time_between_waypoints`
(src/plan_computation.py lines 185-187):
`total_time = 2 * sqrt((distance / 2) / max_accel)`. -/
def triangular_profile_total_time (distance_m max_acceleration_m_per_sec2 : ℝ) : ℝ :=
  2 * Real.sqrt ((distance_m / 2) / max_acceleration_m_per_sec2)

/-- src/plan_computation.py `compute_travel_time_between_waypoints`.
The Python failure points are embedded explicitly: float division by zero
raises `ZeroDivisionError` (at `accel_time` when `max_accel == 0` and at
`t_constant` when `max_speed == 0`), and `math.sqrt` of a negative raises
`ValueError`.  The function performs no other validation. -/
def compute_travel_time_between_waypoints (distance_m max_speed_m_per_sec
    max_acceleration_m_per_sec2 capture_speed_m_per_sec : ℝ) : Except String ℝ :=
  if max_acceleration_m_per_sec2 = 0 then .error "ZeroDivisionError" else
  if acceleration_distance max_speed_m_per_sec max_acceleration_m_per_sec2
      capture_speed_m_per_sec * 2 > distance_m then
    -- triangular speed profile
    if (distance_m / 2) / max_acceleration_m_per_sec2 < 0 then
      .error "ValueError: math domain error"
    else
      .ok (triangular_profile_total_time distance_m max_acceleration_m_per_sec2)
  else
    -- trapezoidal speed profile
    if max_speed_m_per_sec = 0 then .error "ZeroDivisionError"
    else
      .ok (2 * acceleration_time max_speed_m_per_sec max_acceleration_m_per_sec2
            capture_speed_m_per_sec +
          (distance_m - 2 * acceleration_distance max_speed_m_per_sec
              max_acceleration_m_per_sec2 capture_speed_m_per_sec) /
            max_speed_m_per_sec)

/-- src/plan_computation.py `compute_total_time_for_photos`: per consecutive
pair, planar distance minus the blur-correction distance fed through the
travel-time solver, plus `capture_time_ms` per leg, plus one final capture
time when the list is nonempty. -/
def compute_total_time_for_photos (waypoints : List Waypoint)
    (max_speed_m_per_sec max_acceleration_m_per_sec2 capture_speed_m_per_sec
      capture_time_ms : ℝ) : Except String ℝ :=
  let distance_travelled_while_capturing :=
    capture_speed_m_per_sec * (capture_time_ms / 1000)
  ((waypoints.zip waypoints.tail).foldlM
    (fun total p =>
      (compute_travel_time_between_waypoints
          (Real.sqrt ((p.2.x - p.1.x) ^ 2 + (p.2.y - p.1.y) ^ 2) -
            distance_travelled_while_capturing)
          max_speed_m_per_sec max_acceleration_m_per_sec2
          capture_speed_m_per_sec).map
        (fun travel_time => total + (travel_time + capture_time_ms)))
    0).map
    (fun total => if 0 < waypoints.length then total + capture_time_ms else total)

/-- A concrete positive camera used in witnesses: `fx = fy = 100` px,
`cx = cy = 50` px, 10 mm sensor, 100 px image; its plain footprint at
height 1 is `(1, 1)`. -/
def cameraA : Camera := ⟨100, 100, 50, 50, 10, 10, 100, 100⟩

/-- Concrete spec: zero overlap/sidelap, height 1 m, scan 3 × 2 m,
exposure 1000 ms, no tilt; with `cameraA` the grid pitch is 1 m. -/
def specA : DatasetSpec := ⟨0, 0, 1, 3, 2, 1000, 0, 0⟩

/-- Concrete spec: overlap = sidelap = 1/2, scan 1 × 1 m, height 1 m. -/
def specB : DatasetSpec := ⟨1/2, 1/2, 1, 1, 1, 1000, 0, 0⟩

/-- Concrete spec: zero overlap/sidelap, scan 1 × 1 m, height 1 m (used to
exhibit the coverage gap of a sparse grid). -/
def specC : DatasetSpec := ⟨0, 0, 1, 1, 1, 1000, 0, 0⟩

/-- C5: the reprojection of a projected world point at depth `z ≠ 0` is the
exact round-trip identity, for nonzero focal lengths. -/
theorem reproject_project_roundtrip (camera : Camera) (x y z : ℝ)
    (hfx : camera.fx ≠ 0) (hfy : camera.fy ≠ 0) (hz : z ≠ 0) :
    reproject_image_point_to_world camera
      (project_world_point_to_image camera (x, y, z)) z = (x, y, z) := by
  unfold reproject_image_point_to_world project_world_point_to_image
  simp only [Prod.mk.injEq]
  refine ⟨?_, ?_, trivial⟩ <;> (field_simp; ring)

/-- Witness for C5 at the spec's example camera `fx = fy = 1000`,
`cx = cy = 500`, point `(3, 4, 7)`. -/
theorem reproject_project_roundtrip_witness :
    (1000 : ℝ) ≠ 0 ∧ (7 : ℝ) ≠ 0 ∧
    reproject_image_point_to_world
      (Camera.mk 1000 1000 500 500 10 10 4000 3000)
      (project_world_point_to_image
        (Camera.mk 1000 1000 500 500 10 10 4000 3000) (3, 4, 7)) 7
      = (3, 4, 7) :=
  ⟨by norm_num, by norm_num,
    reproject_project_roundtrip (Camera.mk 1000 1000 500 500 10 10 4000 3000)
      3 4 7 (by norm_num) (by norm_num) (by norm_num)⟩

/-- C9: for a camera with positive focal lengths and image sizes, the ground
sampling distance is strictly increasing in the distance from the surface. -/
theorem ground_sampling_distance_strictMono (camera : Camera)
    (hfx : 0 < camera.fx) (hfy : 0 < camera.fy)
    (hix : 0 < camera.image_size_x_px) (hiy : 0 < camera.image_size_y_px)
    (d1 d2 : ℝ) (h : d1 < d2) :
    compute_ground_sampling_distance camera d1 <
      compute_ground_sampling_distance camera d2 := by
  unfold compute_ground_sampling_distance compute_image_footprint_on_surface
  have hcx : 0 < camera.image_size_x_px / camera.fx := div_pos hix hfx
  have hcy : 0 < camera.image_size_y_px / camera.fy := div_pos hiy hfy
  have hx : d1 * (camera.image_size_x_px / camera.fx) / camera.image_size_x_px <
      d2 * (camera.image_size_x_px / camera.fx) / camera.image_size_x_px :=
    div_lt_div_of_pos_right (mul_lt_mul_of_pos_right h hcx) hix
  have hy : d1 * (camera.image_size_y_px / camera.fy) / camera.image_size_y_px <
      d2 * (camera.image_size_y_px / camera.fy) / camera.image_size_y_px :=
    div_lt_div_of_pos_right (mul_lt_mul_of_pos_right h hcy) hiy
  exact lt_min ((min_le_left _ _).trans_lt hx) ((min_le_right _ _).trans_lt hy)

/-- Witness for C9 at a concrete positive camera and `1 < 2`. -/
theorem ground_sampling_distance_strictMono_witness :
    0 < (Camera.mk 1000 1000 500 500 10 10 4000 3000).fx ∧
    (1 : ℝ) < 2 ∧
    compute_ground_sampling_distance (Camera.mk 1000 1000 500 500 10 10 4000 3000) 1 <
      compute_ground_sampling_distance (Camera.mk 1000 1000 500 500 10 10 4000 3000) 2 :=
  ⟨by norm_num, by norm_num,
    ground_sampling_distance_strictMono (Camera.mk 1000 1000 500 500 10 10 4000 3000)
      (by norm_num) (by norm_num) (by norm_num) (by norm_num) 1 2 (by norm_num)⟩

end

/-- Length of a grid built as `flatten` of rows of constant length. -/
lemma length_flatten_map_range {α : Type} (f : ℕ → List α) {m : ℕ} (n : ℕ)
    (h : ∀ k, (f k).length = m) :
    ((List.range n).map f).flatten.length = n * m := by
  rw [List.length_flatten, List.map_map]
  have hrepl : (List.range n).map (List.length ∘ f) = List.replicate n m := by
    refine List.eq_replicate_iff.mpr ⟨by simp, ?_⟩
    intro b hb
    simp only [List.mem_map, Function.comp] at hb
    obtain ⟨k, _, hk⟩ := hb
    rw [← hk]
    exact h k
  rw [hrepl, List.sum_replicate, smul_eq_mul]

/-- Indexing a grid built as `flatten` of rows of constant length `m`:
position `j * m + i` is entry `i` of row `j`. -/
lemma getElem?_flatten_map_range {α : Type} (f : ℕ → List α) {m : ℕ}
    (h : ∀ k, (f k).length = m) :
    ∀ n j i : ℕ, j < n → i < m →
      ((List.range n).map f).flatten[j * m + i]? = (f j)[i]? := by
  intro n
  induction n with
  | zero => intro j i hj _; exact absurd hj (Nat.not_lt_zero j)
  | succ n ih =>
    intro j i hj hi
    rw [List.range_succ, List.map_append, List.flatten_append]
    rcases Nat.lt_or_ge j n with hjn | hjn
    · have hlt : j * m + i < ((List.range n).map f).flatten.length := by
        rw [length_flatten_map_range f n h]
        calc j * m + i < j * m + m := by omega
          _ = (j + 1) * m := by ring
          _ ≤ n * m := Nat.mul_le_mul_right m hjn
      rw [List.getElem?_append_left hlt]
      exact ih j i hjn hi
    · have hj' : j = n := by omega
      rw [hj']
      have hlen : ((List.range n).map f).flatten.length = n * m :=
        length_flatten_map_range f n h
      rw [List.getElem?_append_right (by rw [hlen]; omega), hlen]
      simp only [List.map_cons, List.map_nil, List.flatten_cons,
        List.flatten_nil, List.append_nil, Nat.add_sub_cancel_left]

/-- Indexing `generate_photo_plan_on_grid`: position `ny * num_x + nx` holds
the row-`ny`, column-`nx` waypoint. -/
lemma getElem?_generate_photo_plan_on_grid (camera : Camera)
    (dataset_spec : DatasetSpec) {ny nx : ℕ}
    (hny : ny < number_of_images_y camera dataset_spec)
    (hnx : nx < number_of_images_x camera dataset_spec) :
    (generate_photo_plan_on_grid camera dataset_spec)[ny *
        number_of_images_x camera dataset_spec + nx]? =
      some (photo_plan_waypoint camera dataset_spec
        (number_of_images_x camera dataset_spec) ny nx) := by
  unfold generate_photo_plan_on_grid
  rw [getElem?_flatten_map_range _ (fun k => by simp) _ ny nx hny hnx,
    List.getElem?_map, List.getElem?_range hnx, Option.map_some']

/-- Indexing `generate_photo_plan_on_grid_with_gimbal_angle`. -/
lemma getElem?_generate_photo_plan_with_gimbal (camera : Camera)
    (dataset_spec : DatasetSpec) {ny nx : ℕ}
    (hny : ny < number_of_images_y_with_gimbal camera dataset_spec)
    (hnx : nx < number_of_images_x_with_gimbal camera dataset_spec) :
    (generate_photo_plan_on_grid_with_gimbal_angle camera dataset_spec)[ny *
        number_of_images_x_with_gimbal camera dataset_spec + nx]? =
      some (photo_plan_waypoint_with_gimbal camera dataset_spec
        (number_of_images_x_with_gimbal camera dataset_spec) ny nx) := by
  unfold generate_photo_plan_on_grid_with_gimbal_angle
  rw [getElem?_flatten_map_range _ (fun k => by simp) _ ny nx hny hnx,
    List.getElem?_map, List.getElem?_range hnx, Option.map_some']

/-- The gimbal-aware footprint at zero tilt, with the arctangents folded
away: `d * 2 * ((sensor/2) / focal_mm)` per axis. -/
lemma footprint_with_gimbal_zero (camera : Camera) (d : ℝ) :
    compute_image_footprint_on_surface_with_gimbal_angle camera d 0 0 =
      (d * (2 * ((camera.sensor_size_x_mm / 2) /
        (compute_focal_length_in_mm camera).1)),
       d * (2 * ((camera.sensor_size_y_mm / 2) /
        (compute_focal_length_in_mm camera).2))) := by
  have h2 : ∀ s : ℝ, 2 * Real.arctan s / 2 = Real.arctan s := fun s => by ring
  unfold compute_image_footprint_on_surface_with_gimbal_angle radians
  simp only [zero_mul, zero_div, zero_add, zero_sub, h2, Real.tan_neg,
    Real.tan_arctan, Prod.mk.injEq]
  constructor <;> ring

/-- C7: for a camera with positive fields, the gimbal-aware footprint at
tilt `(0, 0)` equals the plain pixel-ratio footprint, in both components. -/
theorem footprint_with_gimbal_angle_zero_eq (camera : Camera) (d : ℝ)
    (hfx : 0 < camera.fx) (hfy : 0 < camera.fy)
    (hsx : 0 < camera.sensor_size_x_mm) (hsy : 0 < camera.sensor_size_y_mm)
    (hix : 0 < camera.image_size_x_px) (hiy : 0 < camera.image_size_y_px) :
    compute_image_footprint_on_surface_with_gimbal_angle camera d 0 0 =
      compute_image_footprint_on_surface camera d := by
  rw [footprint_with_gimbal_zero]
  unfold compute_image_footprint_on_surface compute_focal_length_in_mm
  have h1 := hfx.ne'
  have h2 := hsx.ne'
  have h3 := hix.ne'
  have h4 := hfy.ne'
  have h5 := hsy.ne'
  have h6 := hiy.ne'
  simp only [Prod.mk.injEq]
  constructor <;> (field_simp; ring)

/-- Witness for C7 at the concrete camera `cameraA` and distance 1. -/
theorem footprint_with_gimbal_angle_zero_eq_witness :
    ((0 : ℝ) < cameraA.fx ∧ 0 < cameraA.fy ∧ 0 < cameraA.sensor_size_x_mm ∧
      0 < cameraA.sensor_size_y_mm ∧ 0 < cameraA.image_size_x_px ∧
      0 < cameraA.image_size_y_px) ∧
    compute_image_footprint_on_surface_with_gimbal_angle cameraA 1 0 0 =
      compute_image_footprint_on_surface cameraA 1 :=
  ⟨⟨by norm_num [cameraA], by norm_num [cameraA], by norm_num [cameraA],
    by norm_num [cameraA], by norm_num [cameraA], by norm_num [cameraA]⟩,
   footprint_with_gimbal_angle_zero_eq cameraA 1 (by norm_num [cameraA])
     (by norm_num [cameraA]) (by norm_num [cameraA]) (by norm_num [cameraA])
     (by norm_num [cameraA]) (by norm_num [cameraA])⟩

/-- Every member of the plain plan is some `photo_plan_waypoint`. -/
lemma mem_generate_photo_plan (camera : Camera) (dataset_spec : DatasetSpec)
    {wp : Waypoint} (h : wp ∈ generate_photo_plan_on_grid camera dataset_spec) :
    ∃ ny nx, wp = photo_plan_waypoint camera dataset_spec
      (number_of_images_x camera dataset_spec) ny nx := by
  simp only [generate_photo_plan_on_grid, List.mem_flatten, List.mem_map] at h
  obtain ⟨row, ⟨ny, _, hrow⟩, hmem⟩ := h
  subst hrow
  simp only [List.mem_map] at hmem
  obtain ⟨nx, _, hwp⟩ := hmem
  exact ⟨ny, nx, hwp.symm⟩

/-- Every member of the gimbal plan is some `photo_plan_waypoint_with_gimbal`. -/
lemma mem_generate_photo_plan_with_gimbal (camera : Camera)
    (dataset_spec : DatasetSpec) {wp : Waypoint}
    (h : wp ∈ generate_photo_plan_on_grid_with_gimbal_angle camera dataset_spec) :
    ∃ ny nx, wp = photo_plan_waypoint_with_gimbal camera dataset_spec
      (number_of_images_x_with_gimbal camera dataset_spec) ny nx := by
  simp only [generate_photo_plan_on_grid_with_gimbal_angle, List.mem_flatten,
    List.mem_map] at h
  obtain ⟨row, ⟨ny, _, hrow⟩, hmem⟩ := h
  subst hrow
  simp only [List.mem_map] at hmem
  obtain ⟨nx, _, hwp⟩ := hmem
  exact ⟨ny, nx, hwp.symm⟩

/-- C1: in both the plain and the gimbal plan, every waypoint carries the
same `z`, equal to the mission height, and the same `speed_m_per_sec`,
equal to the capture speed; `z` and `speed_m_per_sec` are (required) fields
of the `Waypoint` record as constructed and consumed. -/
theorem plan_waypoints_share_z_and_speed (camera : Camera)
    (dataset_spec : DatasetSpec) :
    ((generate_photo_plan_on_grid camera dataset_spec).map Waypoint.z =
      List.replicate (generate_photo_plan_on_grid camera dataset_spec).length
        dataset_spec.height) ∧
    ((generate_photo_plan_on_grid camera dataset_spec).map
        Waypoint.speed_m_per_sec =
      List.replicate (generate_photo_plan_on_grid camera dataset_spec).length
        (compute_speed_during_photo_capture camera dataset_spec 1)) ∧
    ((generate_photo_plan_on_grid_with_gimbal_angle camera dataset_spec).map
        Waypoint.z =
      List.replicate
        (generate_photo_plan_on_grid_with_gimbal_angle camera dataset_spec).length
        dataset_spec.height) ∧
    ((generate_photo_plan_on_grid_with_gimbal_angle camera dataset_spec).map
        Waypoint.speed_m_per_sec =
      List.replicate
        (generate_photo_plan_on_grid_with_gimbal_angle camera dataset_spec).length
        (compute_speed_during_photo_capture camera dataset_spec 1)) := by
  refine ⟨?_, ?_, ?_, ?_⟩ <;> rw [List.map_eq_replicate_iff] <;> intro wp hwp
  · obtain ⟨ny, nx, rfl⟩ := mem_generate_photo_plan camera dataset_spec hwp
    rfl
  · obtain ⟨ny, nx, rfl⟩ := mem_generate_photo_plan camera dataset_spec hwp
    rfl
  · obtain ⟨ny, nx, rfl⟩ :=
      mem_generate_photo_plan_with_gimbal camera dataset_spec hwp
    rfl
  · obtain ⟨ny, nx, rfl⟩ :=
      mem_generate_photo_plan_with_gimbal camera dataset_spec hwp
    rfl

/-- C6: in both plan variants, the waypoint at sequence position
`ny * num_x + nx` has `y = ny * distance_y`, and `x = nx * distance_x` on
even rows and `x = (num_x - nx - 1) * distance_x` on odd rows. -/
theorem serpentine_grid_order (camera : Camera) (dataset_spec : DatasetSpec) :
    (∀ ny nx : ℕ, ny < number_of_images_y camera dataset_spec →
      nx < number_of_images_x camera dataset_spec →
      ∃ wp : Waypoint,
        (generate_photo_plan_on_grid camera dataset_spec)[ny *
            number_of_images_x camera dataset_spec + nx]? = some wp ∧
        wp.y = (ny : ℝ) *
          (compute_distance_between_images camera dataset_spec).2 ∧
        wp.x = (if ny % 2 = 0 then (nx : ℝ)
            else (((number_of_images_x camera dataset_spec : ℤ) -
              (nx : ℤ) - 1 : ℤ) : ℝ)) *
          (compute_distance_between_images camera dataset_spec).1) ∧
    (∀ ny nx : ℕ, ny < number_of_images_y_with_gimbal camera dataset_spec →
      nx < number_of_images_x_with_gimbal camera dataset_spec →
      ∃ wp : Waypoint,
        (generate_photo_plan_on_grid_with_gimbal_angle camera dataset_spec)[ny *
            number_of_images_x_with_gimbal camera dataset_spec + nx]? = some wp ∧
        wp.y = (ny : ℝ) *
          (compute_distance_between_images_with_gimbal_angle camera dataset_spec).2 ∧
        wp.x = (if ny % 2 = 0 then (nx : ℝ)
            else (((number_of_images_x_with_gimbal camera dataset_spec : ℤ) -
              (nx : ℤ) - 1 : ℤ) : ℝ)) *
          (compute_distance_between_images_with_gimbal_angle camera dataset_spec).1) := by
  constructor
  · intro ny nx hny hnx
    refine ⟨_, getElem?_generate_photo_plan_on_grid camera dataset_spec hny hnx,
      rfl, ?_⟩
    by_cases h : ny % 2 = 0 <;> simp [photo_plan_waypoint, h]
  · intro ny nx hny hnx
    refine ⟨_, getElem?_generate_photo_plan_with_gimbal camera dataset_spec hny hnx,
      rfl, ?_⟩
    by_cases h : ny % 2 = 0 <;> simp [photo_plan_waypoint_with_gimbal, h]

/-- Witness for C6 at `cameraA`/`specA` (a 3 × 2 grid of pitch 1), row 1,
column 0: the odd row starts at `x = (3 - 0 - 1) * 1`. -/
theorem serpentine_grid_order_witness :
    (1 < number_of_images_y cameraA specA ∧
     0 < number_of_images_x cameraA specA ∧
     ∃ wp : Waypoint,
       (generate_photo_plan_on_grid cameraA specA)[1 *
           number_of_images_x cameraA specA + 0]? = some wp ∧
       wp.y = ((1 : ℕ) : ℝ) * (compute_distance_between_images cameraA specA).2 ∧
       wp.x = (if (1 : ℕ) % 2 = 0 then ((0 : ℕ) : ℝ)
           else (((number_of_images_x cameraA specA : ℤ) -
             ((0 : ℕ) : ℤ) - 1 : ℤ) : ℝ)) *
         (compute_distance_between_images cameraA specA).1) ∧
    (1 < number_of_images_y_with_gimbal cameraA specA ∧
     0 < number_of_images_x_with_gimbal cameraA specA ∧
     ∃ wp : Waypoint,
       (generate_photo_plan_on_grid_with_gimbal_angle cameraA specA)[1 *
           number_of_images_x_with_gimbal cameraA specA + 0]? = some wp ∧
       wp.y = ((1 : ℕ) : ℝ) *
         (compute_distance_between_images_with_gimbal_angle cameraA specA).2 ∧
       wp.x = (if (1 : ℕ) % 2 = 0 then ((0 : ℕ) : ℝ)
           else (((number_of_images_x_with_gimbal cameraA specA : ℤ) -
             ((0 : ℕ) : ℤ) - 1 : ℤ) : ℝ)) *
         (compute_distance_between_images_with_gimbal_angle cameraA specA).1) := by
  have hy : 1 < number_of_images_y cameraA specA := by
    norm_num [number_of_images_y, compute_distance_between_images,
      compute_image_footprint_on_surface, cameraA, specA]
  have hx : 0 < number_of_images_x cameraA specA := by
    norm_num [number_of_images_x, compute_distance_between_images,
      compute_image_footprint_on_surface, cameraA, specA]
  have hyg : 1 < number_of_images_y_with_gimbal cameraA specA := by
    norm_num [number_of_images_y_with_gimbal,
      compute_distance_between_images_with_gimbal_angle,
      footprint_with_gimbal_zero, compute_focal_length_in_mm, cameraA, specA]
  have hxg : 0 < number_of_images_x_with_gimbal cameraA specA := by
    norm_num [number_of_images_x_with_gimbal,
      compute_distance_between_images_with_gimbal_angle,
      footprint_with_gimbal_zero, compute_focal_length_in_mm, cameraA, specA]
  exact ⟨⟨hy, hx, (serpentine_grid_order cameraA specA).1 1 0 hy hx⟩,
    ⟨hyg, hxg, (serpentine_grid_order cameraA specA).2 1 0 hyg hxg⟩⟩

/-- C3 (amended): for positive camera/spec fields with overlap and sidelap
below 1, the plan has exactly `ceil(scan_x/distance_x) * ceil(scan_y/distance_y)`
waypoints; and whenever the overlap (resp. sidelap) is at least 1/2, the far
edge of the column-maximal (resp. row-maximal) waypoint's surface footprint
reaches the scan dimension. -/
theorem grid_count_and_coverage (camera : Camera) (dataset_spec : DatasetSpec)
    (hfx : 0 < camera.fx) (hfy : 0 < camera.fy)
    (hix : 0 < camera.image_size_x_px) (hiy : 0 < camera.image_size_y_px)
    (hh : 0 < dataset_spec.height)
    (hsx : 0 < dataset_spec.scan_dimension_x)
    (hsy : 0 < dataset_spec.scan_dimension_y)
    (hov : dataset_spec.overlap < 1)
    (hsl : dataset_spec.sidelap < 1) :
    ((generate_photo_plan_on_grid camera dataset_spec).length : ℤ) =
      ⌈dataset_spec.scan_dimension_x /
        (compute_distance_between_images camera dataset_spec).1⌉ *
      ⌈dataset_spec.scan_dimension_y /
        (compute_distance_between_images camera dataset_spec).2⌉ ∧
    (1 / 2 ≤ dataset_spec.overlap →
      ∃ wp ∈ generate_photo_plan_on_grid camera dataset_spec,
        dataset_spec.scan_dimension_x ≤ wp.surface_coord_x2) ∧
    (1 / 2 ≤ dataset_spec.sidelap →
      ∃ wp ∈ generate_photo_plan_on_grid camera dataset_spec,
        dataset_spec.scan_dimension_y ≤ wp.surface_coord_y2) := by
  have hfpx : 0 < (compute_image_footprint_on_surface camera dataset_spec.height).1 := by
    simp only [compute_image_footprint_on_surface]
    exact mul_pos hh (div_pos hix hfx)
  have hfpy : 0 < (compute_image_footprint_on_surface camera dataset_spec.height).2 := by
    simp only [compute_image_footprint_on_surface]
    exact mul_pos hh (div_pos hiy hfy)
  have hdxe : (compute_distance_between_images camera dataset_spec).1 =
      (compute_image_footprint_on_surface camera dataset_spec.height).1 *
        (1 - dataset_spec.overlap) := by
    simp [compute_distance_between_images]
  have hdye : (compute_distance_between_images camera dataset_spec).2 =
      (compute_image_footprint_on_surface camera dataset_spec.height).2 *
        (1 - dataset_spec.sidelap) := by
    simp [compute_distance_between_images]
  have hdx : 0 < (compute_distance_between_images camera dataset_spec).1 := by
    rw [hdxe]; exact mul_pos hfpx (by linarith)
  have hdy : 0 < (compute_distance_between_images camera dataset_spec).2 := by
    rw [hdye]; exact mul_pos hfpy (by linarith)
  have hcx : 0 < ⌈dataset_spec.scan_dimension_x /
      (compute_distance_between_images camera dataset_spec).1⌉ :=
    Int.ceil_pos.mpr (div_pos hsx hdx)
  have hcy : 0 < ⌈dataset_spec.scan_dimension_y /
      (compute_distance_between_images camera dataset_spec).2⌉ :=
    Int.ceil_pos.mpr (div_pos hsy hdy)
  have hnx : (number_of_images_x camera dataset_spec : ℤ) =
      ⌈dataset_spec.scan_dimension_x /
        (compute_distance_between_images camera dataset_spec).1⌉ := by
    unfold number_of_images_x; exact Int.toNat_of_nonneg hcx.le
  have hny : (number_of_images_y camera dataset_spec : ℤ) =
      ⌈dataset_spec.scan_dimension_y /
        (compute_distance_between_images camera dataset_spec).2⌉ := by
    unfold number_of_images_y; exact Int.toNat_of_nonneg hcy.le
  have hx0 : 0 < number_of_images_x camera dataset_spec := by
    unfold number_of_images_x; omega
  have hy0 : 0 < number_of_images_y camera dataset_spec := by
    unfold number_of_images_y; omega
  have hceilx : dataset_spec.scan_dimension_x /
      (compute_distance_between_images camera dataset_spec).1 ≤
      (number_of_images_x camera dataset_spec : ℝ) := by
    have h1 := Int.le_ceil (dataset_spec.scan_dimension_x /
      (compute_distance_between_images camera dataset_spec).1)
    rw [← hnx] at h1
    exact_mod_cast h1
  have hceily : dataset_spec.scan_dimension_y /
      (compute_distance_between_images camera dataset_spec).2 ≤
      (number_of_images_y camera dataset_spec : ℝ) := by
    have h1 := Int.le_ceil (dataset_spec.scan_dimension_y /
      (compute_distance_between_images camera dataset_spec).2)
    rw [← hny] at h1
    exact_mod_cast h1
  have hsxle : dataset_spec.scan_dimension_x ≤
      (number_of_images_x camera dataset_spec : ℝ) *
        (compute_distance_between_images camera dataset_spec).1 := by
    have h2 : dataset_spec.scan_dimension_x /
        (compute_distance_between_images camera dataset_spec).1 *
        (compute_distance_between_images camera dataset_spec).1 ≤
        (number_of_images_x camera dataset_spec : ℝ) *
        (compute_distance_between_images camera dataset_spec).1 :=
      mul_le_mul_of_nonneg_right hceilx hdx.le
    rwa [div_mul_cancel₀ _ hdx.ne'] at h2
  have hsyle : dataset_spec.scan_dimension_y ≤
      (number_of_images_y camera dataset_spec : ℝ) *
        (compute_distance_between_images camera dataset_spec).2 := by
    have h2 : dataset_spec.scan_dimension_y /
        (compute_distance_between_images camera dataset_spec).2 *
        (compute_distance_between_images camera dataset_spec).2 ≤
        (number_of_images_y camera dataset_spec : ℝ) *
        (compute_distance_between_images camera dataset_spec).2 :=
      mul_le_mul_of_nonneg_right hceily hdy.le
    rwa [div_mul_cancel₀ _ hdy.ne'] at h2
  refine ⟨?_, ?_, ?_⟩
  · have hlen : (generate_photo_plan_on_grid camera dataset_spec).length =
        number_of_images_y camera dataset_spec *
          number_of_images_x camera dataset_spec := by
      unfold generate_photo_plan_on_grid
      exact length_flatten_map_range _ _ (fun k => by simp)
    rw [hlen, Nat.cast_mul, hnx, hny, mul_comm]
  · intro hov2
    have hnx1 : number_of_images_x camera dataset_spec - 1 <
        number_of_images_x camera dataset_spec := by omega
    have hget := getElem?_generate_photo_plan_on_grid camera dataset_spec
      hy0 hnx1
    refine ⟨_, List.getElem?_mem hget, ?_⟩
    have hx2 : (photo_plan_waypoint camera dataset_spec
        (number_of_images_x camera dataset_spec) 0
        (number_of_images_x camera dataset_spec - 1)).surface_coord_x2 =
        ((number_of_images_x camera dataset_spec - 1 : ℕ) : ℝ) *
          (compute_distance_between_images camera dataset_spec).1 +
        (compute_image_footprint_on_surface camera dataset_spec.height).1 / 2 := by
      simp [photo_plan_waypoint]
    rw [hx2, Nat.cast_sub hx0, Nat.cast_one]
    have hdxhalf : (compute_distance_between_images camera dataset_spec).1 ≤
        (compute_image_footprint_on_surface camera dataset_spec.height).1 / 2 := by
      rw [hdxe]; nlinarith
    nlinarith [hsxle]
  · intro hsl2
    have hny1 : number_of_images_y camera dataset_spec - 1 <
        number_of_images_y camera dataset_spec := by omega
    have hget := getElem?_generate_photo_plan_on_grid camera dataset_spec
      hny1 hx0
    refine ⟨_, List.getElem?_mem hget, ?_⟩
    have hy2 : (photo_plan_waypoint camera dataset_spec
        (number_of_images_x camera dataset_spec)
        (number_of_images_y camera dataset_spec - 1) 0).surface_coord_y2 =
        ((number_of_images_y camera dataset_spec - 1 : ℕ) : ℝ) *
          (compute_distance_between_images camera dataset_spec).2 +
        (compute_image_footprint_on_surface camera dataset_spec.height).2 / 2 := by
      simp [photo_plan_waypoint]
    rw [hy2, Nat.cast_sub hy0, Nat.cast_one]
    have hdyhalf : (compute_distance_between_images camera dataset_spec).2 ≤
        (compute_image_footprint_on_surface camera dataset_spec.height).2 / 2 := by
      rw [hdye]; nlinarith
    nlinarith [hsyle]

/-- Witness for C3 at `cameraA`/`specB` (overlap = sidelap = 1/2). -/
theorem grid_count_and_coverage_witness :
    ((0 : ℝ) < cameraA.fx ∧ 0 < cameraA.fy ∧ 0 < cameraA.image_size_x_px ∧
     0 < cameraA.image_size_y_px ∧ 0 < specB.height ∧
     0 < specB.scan_dimension_x ∧ 0 < specB.scan_dimension_y ∧
     specB.overlap < 1 ∧ specB.sidelap < 1) ∧
    (((generate_photo_plan_on_grid cameraA specB).length : ℤ) =
      ⌈specB.scan_dimension_x /
        (compute_distance_between_images cameraA specB).1⌉ *
      ⌈specB.scan_dimension_y /
        (compute_distance_between_images cameraA specB).2⌉ ∧
    (1 / 2 ≤ specB.overlap →
      ∃ wp ∈ generate_photo_plan_on_grid cameraA specB,
        specB.scan_dimension_x ≤ wp.surface_coord_x2) ∧
    (1 / 2 ≤ specB.sidelap →
      ∃ wp ∈ generate_photo_plan_on_grid cameraA specB,
        specB.scan_dimension_y ≤ wp.surface_coord_y2)) :=
  ⟨⟨by norm_num [cameraA], by norm_num [cameraA], by norm_num [cameraA],
    by norm_num [cameraA], by norm_num [specB], by norm_num [specB],
    by norm_num [specB], by norm_num [specB], by norm_num [specB]⟩,
   grid_count_and_coverage cameraA specB (by norm_num [cameraA])
     (by norm_num [cameraA]) (by norm_num [cameraA]) (by norm_num [cameraA])
     (by norm_num [specB]) (by norm_num [specB]) (by norm_num [specB])
     (by norm_num [specB]) (by norm_num [specB])⟩

/-- At `cameraA`/`specC` the grid is a single waypoint. -/
lemma generate_photo_plan_cameraA_specC :
    generate_photo_plan_on_grid cameraA specC =
      [photo_plan_waypoint cameraA specC 1 0 0] := by
  have h1 : number_of_images_x cameraA specC = 1 := by
    norm_num [number_of_images_x, compute_distance_between_images,
      compute_image_footprint_on_surface, cameraA, specC]
  have h2 : number_of_images_y cameraA specC = 1 := by
    norm_num [number_of_images_y, compute_distance_between_images,
      compute_image_footprint_on_surface, cameraA, specC]
  unfold generate_photo_plan_on_grid
  rw [h1, h2]
  rfl

/-- C3 counterexample: `cameraA`/`specC` satisfies every hypothesis of the
claim (positive fields, overlap = sidelap = 0 ∈ [0,1)), yet every waypoint's
far edge stays strictly below the scan dimension (1/2 < 1): the coverage
guarantee fails for overlap below 1/2. -/
theorem grid_coverage_counterexample :
    ((0 : ℝ) < cameraA.fx ∧ 0 < cameraA.fy ∧ 0 < cameraA.image_size_x_px ∧
     0 < cameraA.image_size_y_px ∧ 0 < specC.height ∧
     0 < specC.scan_dimension_x ∧ 0 < specC.scan_dimension_y ∧
     0 ≤ specC.overlap ∧ specC.overlap < 1 ∧
     0 ≤ specC.sidelap ∧ specC.sidelap < 1) ∧
    ∀ wp ∈ generate_photo_plan_on_grid cameraA specC,
      wp.surface_coord_x2 < specC.scan_dimension_x := by
  refine ⟨⟨?_, ?_, ?_, ?_, ?_, ?_, ?_, ?_, ?_, ?_, ?_⟩, ?_⟩
  · norm_num [cameraA]
  · norm_num [cameraA]
  · norm_num [cameraA]
  · norm_num [cameraA]
  · norm_num [specC]
  · norm_num [specC]
  · norm_num [specC]
  · norm_num [specC]
  · norm_num [specC]
  · norm_num [specC]
  · norm_num [specC]
  · intro wp hwp
    rw [generate_photo_plan_cameraA_specC, List.mem_singleton] at hwp
    subst hwp
    norm_num [photo_plan_waypoint, compute_distance_between_images,
      compute_image_footprint_on_surface, cameraA, specC]

/-- C2: at the regime boundary (`distance = 2 * accel_distance = 25` for
`max_speed = 5, max_accel = 1, capture_speed = 0`) the function takes the
trapezoidal branch and returns 10 s, while the triangular-branch formula
`2*sqrt((25/2)/1)` evaluates strictly below 10: the two profiles are
discontinuous at the regime switch. -/
theorem travel_time_regime_boundary_mismatch :
    compute_travel_time_between_waypoints 25 5 1 0 = .ok 10 ∧
    triangular_profile_total_time 25 1 < 10 := by
  constructor
  · unfold compute_travel_time_between_waypoints acceleration_distance
      acceleration_time
    norm_num
  · unfold triangular_profile_total_time
    have h25 : Real.sqrt 25 = 5 := by
      rw [show (25 : ℝ) = 5 ^ 2 by norm_num, Real.sqrt_sq (by norm_num)]
    have h : Real.sqrt (25 / 2 / 1) < 5 := by
      calc Real.sqrt (25 / 2 / 1) < Real.sqrt 25 :=
            Real.sqrt_lt_sqrt (by norm_num) (by norm_num)
        _ = 5 := h25
    linarith

/-- C4 (amended): the travel-time function raises an exception iff an
arithmetic failure actually occurs — `max_accel = 0` (division by zero), the
triangular branch taken with a negative sqrt argument, or the trapezoidal
branch taken with `max_speed = 0` (division by zero); no `InvalidKinematics`
validation exists. -/
theorem travel_time_error_characterization
    (distance_m max_speed_m_per_sec max_acceleration_m_per_sec2
      capture_speed_m_per_sec : ℝ) :
    (∃ e, compute_travel_time_between_waypoints distance_m max_speed_m_per_sec
        max_acceleration_m_per_sec2 capture_speed_m_per_sec =
      .error e) ↔
      (max_acceleration_m_per_sec2 = 0 ∨
       (max_acceleration_m_per_sec2 ≠ 0 ∧
         acceleration_distance max_speed_m_per_sec max_acceleration_m_per_sec2
           capture_speed_m_per_sec * 2 > distance_m ∧
         (distance_m / 2) / max_acceleration_m_per_sec2 < 0) ∨
       (max_acceleration_m_per_sec2 ≠ 0 ∧
         ¬(acceleration_distance max_speed_m_per_sec max_acceleration_m_per_sec2
           capture_speed_m_per_sec * 2 > distance_m) ∧
         max_speed_m_per_sec = 0)) := by
  unfold compute_travel_time_between_waypoints
  split_ifs with h1 h2 h3 h4 <;> simp_all

/-- C4 counterexample: with `max_speed = 1 ≤ capture_speed = 2` (distance
10, accel 1) the claim demands an `InvalidKinematics` failure, but the
function returns 11 s without error. -/
theorem travel_time_no_invalid_kinematics_check :
    (1 : ℝ) ≤ 2 ∧
    compute_travel_time_between_waypoints 10 1 1 2 = .ok 11 := by
  constructor
  · norm_num
  · unfold compute_travel_time_between_waypoints acceleration_distance
      acceleration_time
    norm_num

/-- C8: the total mission time is 0 for an empty plan, and for a single
waypoint with `capture_time_ms = 200` it is exactly the one final capture
term, 200. -/
theorem total_time_empty_and_singleton (max_speed_m_per_sec
    max_acceleration_m_per_sec2 capture_speed_m_per_sec capture_time_ms : ℝ)
    (wp : Waypoint) :
    compute_total_time_for_photos [] max_speed_m_per_sec
      max_acceleration_m_per_sec2 capture_speed_m_per_sec capture_time_ms =
      .ok 0 ∧
    compute_total_time_for_photos [wp] max_speed_m_per_sec
      max_acceleration_m_per_sec2 capture_speed_m_per_sec 200 = .ok 200 := by
  constructor <;>
    simp [compute_total_time_for_photos, Except.map, List.foldlM, pure,
      Except.pure]

/-- C10 (amended): for nonnegative distance, positive acceleration, and
`0 ≤ capture_speed ≤ max_speed` with `max_speed` positive, the travel-time
computation succeeds and returns a nonnegative value (in both regimes). -/
theorem travel_time_nonneg (distance_m max_speed_m_per_sec
    max_acceleration_m_per_sec2 capture_speed_m_per_sec : ℝ)
    (hd : 0 ≤ distance_m) (ha : 0 < max_acceleration_m_per_sec2)
    (hcs : 0 ≤ capture_speed_m_per_sec)
    (hcm : capture_speed_m_per_sec ≤ max_speed_m_per_sec)
    (hms : 0 < max_speed_m_per_sec) :
    ∃ t, compute_travel_time_between_waypoints distance_m max_speed_m_per_sec
        max_acceleration_m_per_sec2 capture_speed_m_per_sec = .ok t ∧
      0 ≤ t := by
  have ht : 0 ≤ acceleration_time max_speed_m_per_sec
      max_acceleration_m_per_sec2 capture_speed_m_per_sec :=
    div_nonneg (by linarith) ha.le
  have had : 0 ≤ acceleration_distance max_speed_m_per_sec
      max_acceleration_m_per_sec2 capture_speed_m_per_sec := by
    unfold acceleration_distance
    have h1 : 0 ≤ capture_speed_m_per_sec *
        acceleration_time max_speed_m_per_sec max_acceleration_m_per_sec2
          capture_speed_m_per_sec := mul_nonneg hcs ht
    positivity
  unfold compute_travel_time_between_waypoints
  rw [if_neg ha.ne']
  split_ifs with h2 h3 h4
  · exact absurd h3 (div_nonneg (by linarith) ha.le).not_lt
  · refine ⟨_, rfl, ?_⟩
    unfold triangular_profile_total_time
    positivity
  · exact absurd h4 hms.ne'
  · refine ⟨_, rfl, ?_⟩
    have hq : 0 ≤ (distance_m - 2 * acceleration_distance max_speed_m_per_sec
        max_acceleration_m_per_sec2 capture_speed_m_per_sec) /
        max_speed_m_per_sec :=
      div_nonneg (by linarith [not_lt.mp h2]) hms.le
    linarith

/-- Witness for C10 at distance 1, max_speed 5, accel 1, capture_speed 0. -/
theorem travel_time_nonneg_witness :
    ((0 : ℝ) ≤ 1 ∧ (0 : ℝ) < 1 ∧ (0 : ℝ) ≤ 0 ∧ (0 : ℝ) ≤ 5 ∧ (0 : ℝ) < 5) ∧
    ∃ t, compute_travel_time_between_waypoints 1 5 1 0 = .ok t ∧ 0 ≤ t :=
  ⟨⟨by norm_num, by norm_num, le_refl 0, by norm_num, by norm_num⟩,
   travel_time_nonneg 1 5 1 0 (by norm_num) (by norm_num) (le_refl 0)
     (by norm_num) (by norm_num)⟩

/-- C10 counterexample: distance 1 ≥ 0, accel 1 > 0, and
`0 ≤ capture_speed = max_speed = 0` satisfy the claim's hypotheses, but the
trapezoidal branch divides by `max_speed = 0` (Python `ZeroDivisionError`)
and no value is returned at all. -/
theorem travel_time_zero_max_speed_failure :
    ((0 : ℝ) ≤ 1 ∧ (0 : ℝ) < 1 ∧ (0 : ℝ) ≤ 0 ∧ (0 : ℝ) ≤ 0) ∧
    ∀ t : ℝ, compute_travel_time_between_waypoints 1 0 1 0 ≠ .ok t := by
  refine ⟨⟨by norm_num, by norm_num, le_refl 0, le_refl 0⟩, ?_⟩
  intro t
  unfold compute_travel_time_between_waypoints acceleration_distance
    acceleration_time
  norm_num
  simp
